import Mathlib

/-!
Shallow embedding of `covidmx/serendipia.py` (class `Serendipia`) and proofs about it.

The embedding translates the Python source function by function:

* dates are triples of naturals; `strftime`/`strptime` model the CPython/pandas
  date-format mini-language restricted to the directives this program uses
  (`%d`, `%m`, `%Y`, and literal text);
* `pd.date_range(end=today, periods=n)[::-1]` is modelled over day numbers
  (days since 1970-01-01), with `civilFromDays` converting a day number to a
  calendar date (proleptic Gregorian civil-from-days algorithm);
* a pandas `DataFrame` is a list of column names, a list of rows of cells and
  an integer row index; `pd.read_csv` is an oracle `String → Option DataFrame`
  (`none` models any fetch/parse failure caught by the source's `except` blocks);
* the dynamically-typed `date`/`kind` constructor arguments are `PyVal`s, and
  every raised Python exception becomes a `PyError` value.
-/

/-- Calendar date (year, month, day): the date part of a pandas timestamp. -/
structure Date where
  year : Nat
  month : Nat
  day : Nat
deriving DecidableEq, Repr

/-- Zero-pad to two digits, as the strftime directives `%d` and `%m` do. -/
def pad2 (n : Nat) : String := if n < 10 then "0" ++ toString n else toString n

/-- Zero-pad to four digits, as the strftime directive `%Y` does for the years
this program handles. -/
def pad4 (n : Nat) : String :=
  if n < 10 then "000" ++ toString n
  else if n < 100 then "00" ++ toString n
  else if n < 1000 then "0" ++ toString n
  else toString n

/-- Interpreter for the strftime directives used by the source (`%d`, `%m`, `%Y`,
`%%`, literal characters). -/
def strftimeGo (d : Date) : List Char → String
  | [] => ""
  | '%' :: c :: rest =>
    (if c = 'd' then pad2 d.day
     else if c = 'm' then pad2 d.month
     else if c = 'Y' then pad4 d.year
     else if c = '%' then "%"
     else "%" ++ String.singleton c) ++ strftimeGo d rest
  | c :: rest => String.singleton c ++ strftimeGo d rest

/-- Model of `Timestamp.strftime`. -/
def strftime (fmt : String) (d : Date) : String := strftimeGo d fmt.data

def natOfDigits (ds : List Char) : Nat :=
  ds.foldl (fun acc c => acc * 10 + (c.toNat - '0'.toNat)) 0

/-- Read at most `maxLen` leading digits (at least one), as strptime numeric
directives do. -/
def readNum (maxLen : Nat) (s : List Char) : Option (Nat × List Char) :=
  let ds := (s.take maxLen).takeWhile (fun c => c.isDigit)
  if ds.isEmpty then Option.none else some (natOfDigits ds, s.drop ds.length)

def isLeap (y : Nat) : Bool := y % 4 == 0 && (y % 100 != 0 || y % 400 == 0)

def daysInMonth (y m : Nat) : Nat :=
  if m = 2 then (if isLeap y then 29 else 28)
  else if m = 4 || m = 6 || m = 9 || m = 11 then 30
  else 31

def validDate (y m d : Nat) : Bool :=
  1 ≤ y && y ≤ 9999 && 1 ≤ m && m ≤ 12 && 1 ≤ d && d ≤ daysInMonth y m

/-- Interpreter for the strptime directives used by the source; a failed parse
(`pd.to_datetime` raising) is `none`.  Defaults (1900, 1, 1) are CPython's. -/
def strptimeGo : List Char → List Char → Nat → Nat → Nat → Option Date
  | [], s, y, m, d =>
    if s.isEmpty && validDate y m d then some ⟨y, m, d⟩ else Option.none
  | '%' :: 'd' :: rest, s, y, m, _ =>
    (match readNum 2 s with
     | some (n, s') => strptimeGo rest s' y m n
     | Option.none => Option.none)
  | '%' :: 'm' :: rest, s, y, _, d =>
    (match readNum 2 s with
     | some (n, s') => strptimeGo rest s' y n d
     | Option.none => Option.none)
  | '%' :: 'Y' :: rest, s, _, m, d =>
    (match readNum 4 s with
     | some (n, s') => strptimeGo rest s' n m d
     | Option.none => Option.none)
  | '%' :: '%' :: rest, '%' :: s, y, m, d => strptimeGo rest s y m d
  | '%' :: _ :: _, _, _, _, _ => Option.none
  | '%' :: [], _, _, _, _ => Option.none
  | c :: rest, c' :: s, y, m, d =>
    if c = c' then strptimeGo rest s y m d else Option.none
  | _ :: _, [], _, _, _ => Option.none

/-- Model of `pd.to_datetime(s, format=fmt)` on a string. -/
def strptime (fmt s : String) : Option Date := strptimeGo fmt.data s.data 1900 1 1

/-- Civil-from-days: convert a count of days since 1970-01-01 into a calendar
date (proleptic Gregorian).  Consecutive day numbers are consecutive calendar
dates, which is how `pd.date_range(end=today, periods=n)` is modelled. -/
def civilFromDays (n : Nat) : Date :=
  let z := n + 719468
  let era := z / 146097
  let doe := z % 146097
  let yoe := (doe - doe / 1460 + doe / 36524 - doe / 146096) / 365
  let y := yoe + era * 400
  let doy := doe - (365 * yoe + yoe / 4 - yoe / 100)
  let mp := (5 * doy + 2) / 153
  let d := doy - (153 * mp + 2) / 5 + 1
  let m := if mp < 10 then mp + 3 else mp - 9
  if m ≤ 2 then ⟨y + 1, m, d⟩ else ⟨y, m, d⟩

/-- The candidate day numbers probed by `search_data`:
`pd.date_range(end=today, periods=max_times)[::-1]`, most recent first. -/
def search_dates (today max_times : Nat) : List Nat :=
  (List.range max_times).map (fun i => today - i)

example : civilFromDays 0 = ⟨1970, 1, 1⟩ := by decide
example : civilFromDays 18384 = ⟨2020, 5, 2⟩ := by decide
example : strptime "%d-%m-%Y" "02-05-2020" = some ⟨2020, 5, 2⟩ := by decide
example : strftime "%d-%m-%Y" ⟨2020, 5, 2⟩ = "02-05-2020" := by decide
example : strptime "%d-%m-%Y" "31-02-2020" = Option.none := by decide

/-- `str.lower()`: ASCII lowering plus the Spanish accented capitals that can
occur in the published column names. -/
def lowerChar (c : Char) : Char :=
  if c = 'Á' then 'á' else if c = 'É' then 'é' else if c = 'Í' then 'í'
  else if c = 'Ó' then 'ó' else if c = 'Ú' then 'ú' else if c = 'Ü' then 'ü'
  else if c = 'Ñ' then 'ñ' else c.toLower

def lowerStr (s : String) : String := String.mk (s.data.map lowerChar)

/-- One character of `str.replace(' |-', '_')`: the regex substitutes each
space or hyphen by an underscore. -/
def underscoreChar (c : Char) : Char := if c = ' ' || c = '-' then '_' else c

def underscoreStr (s : String) : String := String.mk (s.data.map underscoreChar)

/-- `str.replace('°', '')`. -/
def stripDegree (s : String) : String :=
  String.mk (s.data.filter (fun c => c != '°'))

/-- Character-level model of the external `unidecode` library: ASCII maps to
itself, the Spanish accented letters map to their base letter, the degree sign
transliterates to "deg", and other characters to "". -/
def unidecodeChar (c : Char) : String :=
  if c.toNat ≤ 127 then String.singleton c
  else if c = 'á' then "a" else if c = 'é' then "e" else if c = 'í' then "i"
  else if c = 'ó' then "o" else if c = 'ú' then "u" else if c = 'ü' then "u"
  else if c = 'ñ' then "n"
  else if c = 'Á' then "A" else if c = 'É' then "E" else if c = 'Í' then "I"
  else if c = 'Ó' then "O" else if c = 'Ú' then "U" else if c = 'Ü' then "U"
  else if c = 'Ñ' then "N" else if c = '°' then "deg" else ""

def unidecodeStr (s : String) : String := String.join (s.data.map unidecodeChar)

/-- Python's regex word character over the (post-unidecode) alphabet. -/
def isWordChar (c : Char) : Bool := c.isAlphanum || c = '_'

def identRev : List Char := "identificacion".data.reverse

/-- Does the reversed list of already-scanned characters end (in the original
order) with the literal "identificacion"?  This is the regex lookbehind. -/
def afterIdent (seen : List Char) : Bool := seen.take identRev.length == identRev

/-- Scan for `re.sub(r'(?<=identificacion)(\w+)', '', s)`: `seen` is the
reversed prefix of the original string already scanned (the lookbehind reads
the original string), `skipping` is true while inside a deleted word-char run. -/
def removeIdentAux : List Char → List Char → Bool → List Char
  | [], _, _ => []
  | c :: rest, seen, skipping =>
    if (skipping || afterIdent seen) && isWordChar c then
      removeIdentAux rest (c :: seen) true
    else
      c :: removeIdentAux rest (c :: seen) false

def removeIdentSuffix (s : String) : String :=
  String.mk (removeIdentAux s.data [] false)

/-- The column renaming of `clean_data` (lines 112-114 of the source):
lower-case, replace spaces/hyphens by underscores, strip degree signs,
unidecode, then delete word-character runs following "identificacion". -/
def rename_col (c : String) : String :=
  removeIdentSuffix (unidecodeStr (stripDegree (underscoreStr (lowerStr c))))

example : rename_col "N° Caso" = "n_caso" := by decide
example : rename_col "identificacion_adicional" = "identificacion" := by decide
example : rename_col "Fecha de Inicio de Síntomas" = "fecha_de_inicio_de_sintomas" := by decide

/-- Is `pat` a leading run of `t`? -/
def chPrefixEq : List Char → List Char → Bool
  | [], _ => true
  | _ :: _, [] => false
  | p :: ps, t :: ts => p == t && chPrefixEq ps ts

/-- Does `t` contain `pat` as a contiguous run? -/
def chContains : List Char → List Char → Bool
  | [], pat => chPrefixEq pat []
  | c :: ts, pat => chPrefixEq pat (c :: ts) || chContains ts pat

/-- `sub in s` / `Series.str.contains` for a literal pattern. -/
def strContains (s sub : String) : Bool := chContains s.data sub.data

example : strContains "Fuente: Secretaría de Salud" "Fuente" = true := by decide
example : strContains "123" "Fuente" = false := by decide

/-- Raised Python exceptions, classified as the spec's error taxonomy does:
`ValueError`/`AssertionError` at configuration or URL-build time become
`invalidArgument`, the two `RuntimeError`s of `read_data`/`search_data` become
`dataUnavailable`/`notFound`, a failure inside `clean_data` (`KeyError` or a
date-parsing `ValueError`) becomes `normalizationError`, and accessing the
never-assigned `self.kind` becomes `attributeError`. -/
inductive PyError
  | invalidArgument (msg : String)
  | notFound (kind : String)
  | dataUnavailable (kind : String) (date : String)
  | normalizationError (msg : String)
  | attributeError (attr : String)
deriving DecidableEq, Repr

/-- A cell of a table: a CSV text field, a converted datetime, or NaN/NaT. -/
inductive Cell
  | str (s : String)
  | date (d : Date)
  | null
deriving DecidableEq, Repr

/-- A pandas DataFrame: column names, rows of cells, and the integer row
index (`pd.read_csv` produces `0, 1, 2, ...`; filtering keeps the original
labels, which is why the source ends with `reset_index(drop=True)`). -/
structure DataFrame where
  cols : List String
  rows : List (List Cell)
  idx : List Nat
deriving DecidableEq, Repr

/-- The cell of row `r` in column position `j` (missing positions are NaN). -/
def cellAt (r : List Cell) (j : Nat) : Cell := r.getD j Cell.null

/-- Position of a column name, as `df['name']` resolves it. -/
def colIdx (cols : List String) (name : String) : Option Nat :=
  match cols with
  | [] => Option.none
  | c :: cs => if c = name then some 0 else (colIdx cs name).map (fun j => j + 1)

/-- `df['name'] = v` with a scalar: overwrite the column if present, else
append it on the right. -/
def setColumn (df : DataFrame) (name : String) (v : Cell) : DataFrame :=
  match colIdx df.cols name with
  | some j => { df with rows := df.rows.map (fun r => r.set j v) }
  | Option.none =>
    { df with cols := df.cols ++ [name], rows := df.rows.map (fun r => r ++ [v]) }

/-- Does the cell's text contain the given literal? -/
def cellContainsStr : Cell → String → Bool
  | .str s, sub => strContains s sub
  | _, _ => false

/-- The row-keeping predicate of `df[~df['n_caso'].str.contains('Fuente|Corte')]`
once `n_caso` sits at position `j`. -/
def keepRow (j : Nat) (r : List Cell) : Bool :=
  !(cellContainsStr (cellAt r j) "Fuente" || cellContainsStr (cellAt r j) "Corte")

/-- Lines 115-116 of the source: the `Fuente`/`Corte` footer-row filter.
Fails (`KeyError`) when there is no `n_caso` column. -/
def filterFuente (df : DataFrame) : Except PyError DataFrame :=
  match colIdx df.cols "n_caso" with
  | Option.none => .error (.normalizationError "n_caso")
  | some j =>
    let kept := (df.idx.zip df.rows).filter (fun p => keepRow j p.2)
    .ok { cols := df.cols, rows := kept.map (fun p => p.2), idx := kept.map (fun p => p.1) }

/-- `pd.to_datetime` on one cell: strings must parse, NaN passes through as
NaT, already-converted datetimes pass through. -/
def parseCell (fmt : String) : Cell → Option Cell
  | .str s => (strptime fmt s).map Cell.date
  | .date d => some (.date d)
  | .null => some .null

def parseCellD (fmt : String) (c : Cell) : Cell := (parseCell fmt c).getD Cell.null

/-- The table produced by a successful `pd.to_datetime` column conversion:
every cell of column `j` replaced by its parsed value. -/
def setParsed (fmt : String) (j : Nat) (df : DataFrame) : DataFrame :=
  { df with rows := df.rows.map (fun r => r.set j (parseCellD fmt (cellAt r j))) }

/-- `df.loc[:, name] = pd.to_datetime(df[name], format=fmt)`: fails when the
column is absent (`KeyError`) or any cell fails to parse (`ValueError`). -/
def parseColumn (fmt name : String) (df : DataFrame) : Except PyError DataFrame :=
  match colIdx df.cols name with
  | Option.none => .error (.normalizationError name)
  | some j =>
    if df.rows.all (fun r => (parseCell fmt (cellAt r j)).isSome) then
      .ok { df with rows := df.rows.map (fun r => r.set j (parseCellD fmt (cellAt r j))) }
    else .error (.normalizationError ("parse " ++ name))

/-- Lines 112-114 of the source: `df.columns = df.columns...`. -/
def renameColumns (df : DataFrame) : DataFrame :=
  { df with cols := df.cols.map rename_col }

/-- Align one row of a table with columns `oldCols` to the concatenated
column list `newCols`; columns the table lacks are filled with NaN. -/
def reindexRow (oldCols : List String) (r : List Cell) (newCols : List String) : List Cell :=
  newCols.map (fun c =>
    match colIdx oldCols c with
    | some j => cellAt r j
    | Option.none => Cell.null)

def sortStrings (l : List String) : List String :=
  l.insertionSort (fun a b => a ≤ b)

/-- The column list of `pd.concat(dfs, sort=True)`: when all inputs agree the
common list is kept, otherwise the union is taken and sorted. -/
def concatCols (dfs : List DataFrame) : List String :=
  match dfs with
  | [] => []
  | d :: ds =>
    if (d :: ds).all (fun x => x.cols == d.cols) then d.cols
    else sortStrings (((d :: ds).flatMap (fun x => x.cols)).dedup)

/-- `pd.concat(dfs, sort=True)`: rows (and index labels) in input order, each
row aligned to the combined column list. -/
def concatTables (dfs : List DataFrame) : DataFrame :=
  let cols := concatCols dfs
  { cols := cols,
    rows := dfs.flatMap (fun d => d.rows.map (fun r => reindexRow d.cols r cols)),
    idx := dfs.flatMap (fun d => d.idx) }

/-- `reset_index(drop=True)`. -/
def resetIndex (df : DataFrame) : DataFrame :=
  { df with idx := List.range df.rows.length }

/-- A dynamically-typed Python value, as far as the constructor inspects one. -/
inductive PyVal
  | none
  | str (s : String)
  | int (n : Int)
  | bool (b : Bool)
  | list (xs : List PyVal)
deriving Repr

def isStr : PyVal → Bool
  | .str _ => true
  | _ => false

def isList : PyVal → Bool
  | .list _ => true
  | _ => false

def isNone : PyVal → Bool
  | .none => true
  | _ => false

/-- The constructor's `isinstance(v, str) or isinstance(v, list) or v is None`. -/
def wellTyped (v : PyVal) : Bool := isStr v || isList v || isNone v

/-- Python truthiness (`if not v`): None, "", [], 0 and False are falsy. -/
def isFalsy : PyVal → Bool
  | .none => true
  | .str s => s.isEmpty
  | .list xs => xs.isEmpty
  | .int n => n == 0
  | .bool b => !b

def pyListOf : PyVal → List PyVal
  | .list xs => xs
  | _ => []

/-- The configuration state a successfully constructed `Serendipia` object
carries.  `kind = none` models the attribute `self.kind` never having been
assigned (which the constructor allows to happen). -/
structure Serendipia where
  search_date : Bool
  date : List PyVal
  kind : Option (List String)
  clean : Bool
  add_search_date : Bool
  date_format : String
deriving Repr

/-- Sequential effectful map, as a Python list comprehension evaluates: the
first raised exception aborts the whole expression. -/
def mapE (f : α → Except PyError β) : List α → Except PyError (List β)
  | [] => .ok []
  | a :: l =>
    match f a with
    | .error e => .error e
    | .ok b =>
      match mapE f l with
      | .error e => .error e
      | .ok bs => .ok (b :: bs)

/-- `itertools.product(date, kind)`. -/
def cartProd (xs : List α) (ys : List β) : List (α × β) :=
  xs.flatMap (fun x => ys.map (fun y => (x, y)))

namespace Serendipia

/-- `Serendipia.__init__` (lines 8-70 of the source).  `search_date` is
`not date` (truthiness), `date` is wrapped into a one-element list when it is
a string or None, the kinds default is assigned when `kind` is falsy, and a
supplied kind string must be one of the two allowed values; a non-string,
non-falsy `kind` (a non-empty list) leaves `self.kind` unassigned, which the
`kind = Option.none` configuration state records. -/
def init (date kind : PyVal) (clean add_search_date : Bool) (date_format : String) :
    Except PyError Serendipia :=
  if wellTyped date = false then .error (.invalidArgument "date must be string or list")
  else if wellTyped kind = false then .error (.invalidArgument "kind must be string or list")
  else
    match kind with
    | .str s =>
      if s = "positivos" || s = "sospechosos" then
        .ok ⟨isFalsy date, if isStr date || isNone date then [date] else pyListOf date,
          some [s], clean, add_search_date, date_format⟩
      else
        .error (.invalidArgument
          "Serendipia source only considers positivos, sospechosos. Please use one of them.")
    | _ =>
      .ok ⟨isFalsy date, if isStr date || isNone date then [date] else pyListOf date,
        if isFalsy kind then some ["positivos", "sospechosos"] else Option.none,
        clean, add_search_date, date_format⟩

/-- The f-string of the `positivos` branch of `get_url`. -/
def url_indre (year month date_f kind : String) : String :=
  "https://serendipia.digital/wp-content/uploads/" ++ year ++ "/" ++ month ++
    "/Tabla_casos_" ++ kind ++ "_COVID-19_resultado_InDRE_" ++ date_f ++ "-Table-1.csv"

/-- The f-string of the `else` branch of `get_url`. -/
def url_plain (year month date_f kind : String) : String :=
  "https://serendipia.digital/wp-content/uploads/" ++ year ++ "/" ++ month ++
    "/Tabla_casos_" ++ kind ++ "_COVID-19_" ++ date_f ++ "-Table-1.csv"

/-- `Serendipia.get_url` (lines 146-172 of the source). -/
def get_url (cfg : Serendipia) (date kind : String) : Except PyError String :=
  match strptime cfg.date_format date with
  | Option.none => .error (.invalidArgument "could not parse date")
  | some d =>
    let year := strftime "%Y" d
    let month := strftime "%m" d
    let date_f := strftime "%Y.%m.%d" d
    if kind = "positivos" || kind = "sospechosos" then
      if kind = "positivos" then .ok (url_indre year month date_f kind)
      else .ok (url_plain year month date_f kind)
    else
      .error (.invalidArgument
        "Serendipia source only considers positivos, sospechosos. Please use one of them.")

/-- The body of the `for date in search_dates:` loop of `search_data`: a fetch
failure for a candidate is swallowed and the next older candidate is tried;
exhaustion raises the final `RuntimeError`. -/
def searchLoop (cfg : Serendipia) (fetch : String → Option DataFrame) (kind : String) :
    List Nat → Except PyError (DataFrame × String)
  | [] => .error (.notFound kind)
  | d :: ds =>
    match cfg.get_url (strftime cfg.date_format (civilFromDays d)) kind with
    | .error e => .error e
    | .ok url =>
      match fetch url with
      | some df => .ok (df, strftime cfg.date_format (civilFromDays d))
      | Option.none => searchLoop cfg fetch kind ds

/-- `Serendipia.search_data` (lines 126-144 of the source); `today` is the day
number of `pd.to_datetime('today')`. -/
def search_data (cfg : Serendipia) (fetch : String → Option DataFrame)
    (today max_times : Nat) (kind : String) : Except PyError (DataFrame × String) :=
  cfg.searchLoop fetch kind (search_dates today max_times)

/-- `Serendipia.read_data` (lines 87-108 of the source). -/
def read_data (cfg : Serendipia) (fetch : String → Option DataFrame) (today : Nat)
    (date : PyVal) (kind : String) : Except PyError DataFrame :=
  if cfg.search_date then
    match cfg.search_data fetch today 5 kind with
    | .error e => .error e
    | .ok (df, found_date) =>
      .ok (if cfg.add_search_date then setColumn df "fecha_busqueda" (.str found_date) else df)
  else
    match date with
    | .str s =>
      (match cfg.get_url s kind with
       | .error e => .error e
       | .ok url =>
         match fetch url with
         | some df =>
           .ok (if cfg.add_search_date then setColumn df "fecha_busqueda" (.str s) else df)
         | Option.none => .error (.dataUnavailable kind s))
    | _ => .error (.invalidArgument "could not parse date")

/-- `Serendipia.clean_data` (lines 110-124 of the source). -/
def clean_data (cfg : Serendipia) (df : DataFrame) : Except PyError DataFrame :=
  (filterFuente (renameColumns df)).bind (fun df2 =>
    (parseColumn cfg.date_format "fecha_busqueda" df2).bind (fun df3 =>
      parseColumn "%d/%m/%Y" "fecha_de_inicio_de_sintomas" df3))

/-- `Serendipia.get_data` (lines 72-85 of the source).  Accessing the possibly
never-assigned `self.kind` happens first, when `product` is evaluated. -/
def get_data (cfg : Serendipia) (fetch : String → Option DataFrame) (today : Nat) :
    Except PyError (List DataFrame ⊕ DataFrame) :=
  match cfg.kind with
  | Option.none => .error (.attributeError "kind")
  | some kinds =>
    match mapE (fun p => cfg.read_data fetch today p.1 p.2) (cartProd cfg.date kinds) with
    | .error e => .error e
    | .ok dfs =>
      if cfg.clean then
        match mapE cfg.clean_data dfs with
        | .error e => .error e
        | .ok cdfs => .ok (.inr (resetIndex (concatTables cdfs)))
      else .ok (.inl dfs)

end Serendipia

/-! Concrete values used by witness theorems. -/

/-- A configuration with the default date format, explicit dates, both kinds. -/
def cfgW : Serendipia :=
  ⟨false, [.str "01-05-2020", .str "02-05-2020"], some ["positivos"], true, true, "%d-%m-%Y"⟩

/-- The URL the embedding builds for a given day number and kind (empty on
error); used to phrase concrete fetch oracles in witnesses. -/
def urlOf (cfg : Serendipia) (day : Nat) (kind : String) : String :=
  match cfg.get_url (strftime cfg.date_format (civilFromDays day)) kind with
  | .ok s => s
  | .error _ => ""

/-- A search-mode configuration (no date supplied). -/
def cfgS : Serendipia :=
  ⟨true, [PyVal.none], some ["sospechosos"], true, true, "%d-%m-%Y"⟩

/-- A one-row table used as a fetched result in witnesses. -/
def dfX : DataFrame := ⟨["n_caso"], [[Cell.str "1"]], [0]⟩

/-- A fetch oracle that only has data for 2020-05-01 (day number 18383). -/
def fetchW : String → Option DataFrame := fun url =>
  if url = urlOf cfgW 18383 "positivos" then some dfX else Option.none

/-- A two-row table containing a footer row and a data row, as published. -/
def dfC5 : DataFrame :=
  ⟨["N° Caso"], [[Cell.str "Fuente: Secretaría de Salud"], [Cell.str "123"]], [0, 1]⟩

/-- Is a cell a canonical date value (a converted datetime, or NaT)? -/
def isDatelike : Cell → Bool
  | .str _ => false
  | _ => true

/-- A configuration that did not request the search date column
(`add_search_date = false`). -/
def cfgN : Serendipia :=
  ⟨false, [.str "01-05-2020"], some ["positivos"], true, false, "%d-%m-%Y"⟩

/-- A table with case number and symptom-onset columns but no search-date
column, as fetched when `add_search_date` is false. -/
def dfC6 : DataFrame :=
  ⟨["N° Caso", "Fecha de Inicio de Síntomas"], [[Cell.str "1", Cell.str "01/05/2020"]], [0]⟩

/-- A table that additionally carries the injected `fecha_busqueda` column. -/
def dfC6ok : DataFrame :=
  ⟨["N° Caso", "Fecha de Inicio de Síntomas", "fecha_busqueda"],
    [[Cell.str "1", Cell.str "02/05/2020", Cell.str "01-05-2020"]], [0]⟩

/-- A raw fetched table as published (no search-date column yet). -/
def dfY : DataFrame :=
  ⟨["N° Caso", "Fecha de Inicio de Síntomas"],
    [[Cell.str "1", Cell.str "01/05/2020"]], [0]⟩

/-- A fetch oracle with data for both 2020-05-01 and 2020-05-02. -/
def fetchW2 : String → Option DataFrame := fun url =>
  if url = urlOf cfgW 18383 "positivos" then some dfY
  else if url = urlOf cfgW 18384 "positivos" then some dfY
  else Option.none

/-- The two raw tables `read_data` produces for `cfgW` under `fetchW2`. -/
def dfs7 : List DataFrame :=
  [⟨["N° Caso", "Fecha de Inicio de Síntomas", "fecha_busqueda"],
     [[Cell.str "1", Cell.str "01/05/2020", Cell.str "01-05-2020"]], [0]⟩,
   ⟨["N° Caso", "Fecha de Inicio de Síntomas", "fecha_busqueda"],
     [[Cell.str "1", Cell.str "01/05/2020", Cell.str "02-05-2020"]], [0]⟩]

/-- The two cleaned tables `clean_data` produces from `dfs7`. -/
def cdfs7 : List DataFrame :=
  [⟨["n_caso", "fecha_de_inicio_de_sintomas", "fecha_busqueda"],
     [[Cell.str "1", Cell.date ⟨2020, 5, 1⟩, Cell.date ⟨2020, 5, 1⟩]], [0]⟩,
   ⟨["n_caso", "fecha_de_inicio_de_sintomas", "fecha_busqueda"],
     [[Cell.str "1", Cell.date ⟨2020, 5, 1⟩, Cell.date ⟨2020, 5, 2⟩]], [0]⟩]

/-! Helper lemmas. -/

theorem strData_inj {a b : String} (h : a.data = b.data) : a = b := by
  cases a; cases b; exact congrArg String.mk h

theorem listMerge {α : Type} (b k c s f : List α) (h : b ++ k ++ c = s ++ f) (X : List α) :
    b ++ (k ++ (c ++ X)) = s ++ (f ++ X) := by
  have h2 := congrArg (fun t => t ++ X) h
  simpa [List.append_assoc] using h2

theorem strftime_Y (d : Date) : strftime "%Y" d = pad4 d.year := by
  have h : strftime "%Y" d = pad4 d.year ++ "" := rfl
  rw [h, String.append_empty]

theorem strftime_m (d : Date) : strftime "%m" d = pad2 d.month := by
  have h : strftime "%m" d = pad2 d.month ++ "" := rfl
  rw [h, String.append_empty]

theorem strftime_token (d : Date) :
    strftime "%Y.%m.%d" d = pad4 d.year ++ "." ++ pad2 d.month ++ "." ++ pad2 d.day := by
  have h : strftime "%Y.%m.%d" d =
      pad4 d.year ++ ("." ++ (pad2 d.month ++ ("." ++ (pad2 d.day ++ "")))) := rfl
  rw [h, String.append_empty]
  simp [String.append_assoc]

/-! Claim theorems. -/

/-- Claim C1: for every date parseable under the configured date format,
`get_url` with kind `positivos` returns the URL rooted at
`https://serendipia.digital/wp-content/uploads/<year>/<month>/` with file name
`Tabla_casos_positivos_COVID-19_resultado_InDRE_<YYYY.MM.DD>-Table-1.csv`, and
with kind `sospechosos` the same root with
`Tabla_casos_sospechosos_COVID-19_<YYYY.MM.DD>-Table-1.csv`; the
InDRE-suffixed template is selected if and only if the kind is `positivos`. -/
theorem claim_C1 (cfg : Serendipia) (s : String) (d : Date)
    (hparse : strptime cfg.date_format s = some d) :
    cfg.get_url s "positivos" =
      .ok ("https://serendipia.digital/wp-content/uploads/" ++ pad4 d.year ++ "/" ++
        pad2 d.month ++ "/" ++ "Tabla_casos_positivos_COVID-19_resultado_InDRE_" ++
        (pad4 d.year ++ "." ++ pad2 d.month ++ "." ++ pad2 d.day) ++ "-Table-1.csv") ∧
    cfg.get_url s "sospechosos" =
      .ok ("https://serendipia.digital/wp-content/uploads/" ++ pad4 d.year ++ "/" ++
        pad2 d.month ++ "/" ++ "Tabla_casos_sospechosos_COVID-19_" ++
        (pad4 d.year ++ "." ++ pad2 d.month ++ "." ++ pad2 d.day) ++ "-Table-1.csv") ∧
    (∀ k, k = "positivos" ∨ k = "sospechosos" →
      (cfg.get_url s k =
          .ok (Serendipia.url_indre (strftime "%Y" d) (strftime "%m" d)
            (strftime "%Y.%m.%d" d) k) ↔
        k = "positivos")) := by
  have hpos : cfg.get_url s "positivos" =
      .ok (Serendipia.url_indre (strftime "%Y" d) (strftime "%m" d)
        (strftime "%Y.%m.%d" d) "positivos") := by
    unfold Serendipia.get_url
    rw [hparse]
    rfl
  have hsos : cfg.get_url s "sospechosos" =
      .ok (Serendipia.url_plain (strftime "%Y" d) (strftime "%m" d)
        (strftime "%Y.%m.%d" d) "sospechosos") := by
    unfold Serendipia.get_url
    rw [hparse]
    rfl
  refine ⟨?_, ?_, ?_⟩
  · rw [hpos, strftime_Y, strftime_m, strftime_token]
    refine congrArg Except.ok ?_
    unfold Serendipia.url_indre
    apply strData_inj
    simp only [String.data_append, List.append_assoc]
    refine congrArg _ (congrArg _ (congrArg _ (congrArg _ ?_)))
    exact listMerge "/Tabla_casos_".data "positivos".data
      "_COVID-19_resultado_InDRE_".data "/".data
      "Tabla_casos_positivos_COVID-19_resultado_InDRE_".data (by decide) _
  · rw [hsos, strftime_Y, strftime_m, strftime_token]
    refine congrArg Except.ok ?_
    unfold Serendipia.url_plain
    apply strData_inj
    simp only [String.data_append, List.append_assoc]
    refine congrArg _ (congrArg _ (congrArg _ (congrArg _ ?_)))
    exact listMerge "/Tabla_casos_".data "sospechosos".data
      "_COVID-19_".data "/".data
      "Tabla_casos_sospechosos_COVID-19_".data (by decide) _
  · rintro k (rfl | rfl)
    · simp [hpos]
    · constructor
      · intro h
        exfalso
        have heq : Serendipia.url_plain (strftime "%Y" d) (strftime "%m" d)
            (strftime "%Y.%m.%d" d) "sospechosos" =
            Serendipia.url_indre (strftime "%Y" d) (strftime "%m" d)
              (strftime "%Y.%m.%d" d) "sospechosos" :=
          Except.ok.inj (hsos.symm.trans h)
        have hl := congrArg String.length heq
        simp only [Serendipia.url_plain, Serendipia.url_indre, String.length_append] at hl
        rw [show ("_COVID-19_" : String).length = 10 from rfl,
          show ("_COVID-19_resultado_InDRE_" : String).length = 26 from rfl] at hl
        omega
      · intro h
        exact absurd h (by decide)

/-- Witness for C1 at the concrete date 15-06-2020. -/
theorem claim_C1_witness :
    strptime "%d-%m-%Y" "15-06-2020" = some ⟨2020, 6, 15⟩ ∧
    cfgW.get_url "15-06-2020" "positivos" =
      .ok ("https://serendipia.digital/wp-content/uploads/" ++ pad4 2020 ++ "/" ++
        pad2 6 ++ "/" ++ "Tabla_casos_positivos_COVID-19_resultado_InDRE_" ++
        (pad4 2020 ++ "." ++ pad2 6 ++ "." ++ pad2 15) ++ "-Table-1.csv") :=
  ⟨by decide, (claim_C1 cfgW "15-06-2020" ⟨2020, 6, 15⟩ (by decide)).1⟩

theorem search_dates_length (today max_times : Nat) :
    (search_dates today max_times).length = max_times := by
  simp [search_dates]

theorem search_dates_getD (today max_times j : Nat) (h : j < max_times) :
    (search_dates today max_times).getD j 0 = today - j := by
  simp [search_dates, List.getD_eq_getElem?_getD, List.getElem?_map, List.getElem?_range h]

theorem search_dates_succ (t n : Nat) :
    search_dates t (n + 1) = t :: search_dates (t - 1) n := by
  simp [search_dates, List.range_succ_eq_map, List.map_map]
  intro a _
  omega

theorem search_dates_chain (today max_times : Nat) (h : max_times ≤ today + 1) :
    List.Chain' (fun a b => a = b + 1) (search_dates today max_times) := by
  induction max_times generalizing today with
  | zero => simp [search_dates]
  | succ n ih =>
    rw [search_dates_succ, List.chain'_cons']
    constructor
    · intro b hb
      cases n with
      | zero => simp [search_dates] at hb
      | succ n' =>
        rw [search_dates_succ] at hb
        simp at hb
        omega
    · exact ih (today - 1) (by omega)

theorem searchLoop_first_success (cfg : Serendipia) (fetch : String → Option DataFrame)
    (kind : String) (l : List Nat) :
    ∀ (u : Nat → String) (i : Nat) (df : DataFrame),
      i < l.length →
      (∀ j, j ≤ i →
        cfg.get_url (strftime cfg.date_format (civilFromDays (l.getD j 0))) kind = .ok (u j)) →
      (∀ j, j < i → fetch (u j) = Option.none) →
      fetch (u i) = some df →
      cfg.searchLoop fetch kind l =
        .ok (df, strftime cfg.date_format (civilFromDays (l.getD i 0))) := by
  induction l with
  | nil =>
    intro u i df hlen _ _ _
    simp at hlen
  | cons d ds ih =>
    intro u i df hlen hget hfail hsucc
    have h0 : cfg.get_url (strftime cfg.date_format (civilFromDays d)) kind = .ok (u 0) :=
      hget 0 (Nat.zero_le i)
    cases i with
    | zero =>
      unfold Serendipia.searchLoop
      simp only [h0, hsucc, List.getD_cons_zero]
    | succ i' =>
      unfold Serendipia.searchLoop
      simp only [h0, hfail 0 (Nat.succ_pos i'), List.getD_cons_succ]
      exact ih (fun j => u (j + 1)) i' df (Nat.lt_of_succ_lt_succ hlen)
        (fun j hj => hget (j + 1) (Nat.succ_le_succ hj))
        (fun j hj => hfail (j + 1) (Nat.succ_lt_succ hj)) hsucc

theorem searchLoop_all_fail (cfg : Serendipia) (fetch : String → Option DataFrame)
    (kind : String) (l : List Nat) :
    ∀ (u : Nat → String),
      (∀ j, j < l.length →
        cfg.get_url (strftime cfg.date_format (civilFromDays (l.getD j 0))) kind = .ok (u j)) →
      (∀ j, j < l.length → fetch (u j) = Option.none) →
      cfg.searchLoop fetch kind l = .error (.notFound kind) := by
  induction l with
  | nil =>
    intro u _ _
    rfl
  | cons d ds ih =>
    intro u hget hfail
    have hlen : 0 < (d :: ds).length := by simp
    have h0 : cfg.get_url (strftime cfg.date_format (civilFromDays d)) kind = .ok (u 0) :=
      hget 0 hlen
    unfold Serendipia.searchLoop
    simp only [h0, hfail 0 hlen]
    exact ih (fun j => u (j + 1))
      (fun j hj => hget (j + 1) (by simpa using Nat.succ_lt_succ hj))
      (fun j hj => hfail (j + 1) (by simpa using Nat.succ_lt_succ hj))

/-- Claim C2: for every kind and max_attempts, `search_data` probes exactly the
`max_attempts` consecutive calendar dates ending at the current date, most
recent first; for each candidate it builds the candidate's URL and attempts a
fetch, and at the first candidate whose fetch succeeds it returns immediately
the fetched raw table together with that date formatted per the configured
format, without attempting any older candidate (the result is unchanged under
any fetch oracle that agrees on the candidates up to the first success). -/
theorem claim_C2 (cfg : Serendipia) (fetch : String → Option DataFrame)
    (today max_times : Nat) (kind : String) (u : Nat → String) (i : Nat) (df : DataFrame)
    (hi : i < max_times)
    (hget : ∀ j, j ≤ i →
      cfg.get_url (strftime cfg.date_format (civilFromDays (today - j))) kind = .ok (u j))
    (hfail : ∀ j, j < i → fetch (u j) = Option.none)
    (hsucc : fetch (u i) = some df) :
    cfg.search_data fetch today max_times kind =
      .ok (df, strftime cfg.date_format (civilFromDays (today - i))) ∧
    (∀ fetch2 : String → Option DataFrame,
      (∀ j, j ≤ i → fetch2 (u j) = fetch (u j)) →
      cfg.search_data fetch2 today max_times kind =
        .ok (df, strftime cfg.date_format (civilFromDays (today - i)))) ∧
    (search_dates today max_times).length = max_times ∧
    (∀ j, j < max_times → (search_dates today max_times).getD j 0 = today - j) ∧
    (max_times ≤ today + 1 →
      List.Chain' (fun a b => a = b + 1) (search_dates today max_times)) := by
  have main : ∀ fetch2 : String → Option DataFrame,
      (∀ j, j < i → fetch2 (u j) = Option.none) → fetch2 (u i) = some df →
      cfg.search_data fetch2 today max_times kind =
        .ok (df, strftime cfg.date_format (civilFromDays (today - i))) := by
    intro fetch2 hfail2 hsucc2
    have h := searchLoop_first_success cfg fetch2 kind (search_dates today max_times) u i df
      (by rw [search_dates_length]; exact hi)
      (fun j hj => by
        rw [search_dates_getD today max_times j (lt_of_le_of_lt hj hi)]
        exact hget j hj)
      hfail2 hsucc2
    rw [search_dates_getD today max_times i hi] at h
    exact h
  refine ⟨main fetch hfail hsucc, ?_, search_dates_length today max_times,
    fun j hj => search_dates_getD today max_times j hj, search_dates_chain today max_times⟩
  intro fetch2 hagree
  exact main fetch2 (fun j hj => (hagree j (le_of_lt hj)).trans (hfail j hj))
    ((hagree i (le_refl i)).trans hsucc)

/-- Witness for C2: two failing probes would be older than the success at
2020-05-01 when today is 2020-05-02 (day 18384); the first success is
candidate 1 and the probe stops there. -/
theorem claim_C2_witness :
    (1 : Nat) < 3 ∧
    cfgW.search_data fetchW 18384 3 "positivos" =
      .ok (dfX, strftime cfgW.date_format (civilFromDays (18384 - 1))) := by
  refine ⟨by decide, (claim_C2 cfgW fetchW 18384 3 "positivos"
    (fun j => urlOf cfgW (18384 - j) "positivos") 1 dfX (by decide) ?_ ?_ ?_).1⟩
  · intro j hj
    interval_cases j <;> rfl
  · intro j hj
    interval_cases j
    rfl
  · rfl

/-- Claim C3: for every kind, if every one of the `max_attempts` candidate
fetches fails, `search_data` fails with NotFound carrying the kind; and
`read_data` in search mode invokes the resolver with `max_attempts = 5`, so
with five failing candidates it surfaces the same NotFound. -/
theorem claim_C3 (cfg : Serendipia) (fetch : String → Option DataFrame)
    (today : Nat) (kind : String) (u : Nat → String) :
    (∀ max_times,
      (∀ j, j < max_times →
        cfg.get_url (strftime cfg.date_format (civilFromDays (today - j))) kind = .ok (u j)) →
      (∀ j, j < max_times → fetch (u j) = Option.none) →
      cfg.search_data fetch today max_times kind = .error (.notFound kind)) ∧
    (cfg.search_date = true →
      (∀ j, j < 5 →
        cfg.get_url (strftime cfg.date_format (civilFromDays (today - j))) kind = .ok (u j)) →
      (∀ j, j < 5 → fetch (u j) = Option.none) →
      ∀ dt, cfg.read_data fetch today dt kind = .error (.notFound kind)) := by
  have part1 : ∀ max_times,
      (∀ j, j < max_times →
        cfg.get_url (strftime cfg.date_format (civilFromDays (today - j))) kind = .ok (u j)) →
      (∀ j, j < max_times → fetch (u j) = Option.none) →
      cfg.search_data fetch today max_times kind = .error (.notFound kind) := by
    intro max_times hget hfail
    exact searchLoop_all_fail cfg fetch kind (search_dates today max_times) u
      (fun j hj => by
        rw [search_dates_length] at hj
        rw [search_dates_getD today max_times j hj]
        exact hget j hj)
      (fun j hj => by rw [search_dates_length] at hj; exact hfail j hj)
  refine ⟨part1, ?_⟩
  intro hsd hget hfail dt
  have h5 := part1 5 hget hfail
  simp [Serendipia.read_data, hsd, h5]

/-- Witness for C3: an always-failing fetch oracle makes both the two-attempt
search and the five-attempt search behind `read_data` fail with NotFound. -/
theorem claim_C3_witness :
    cfgS.search_data (fun _ => Option.none) 18384 2 "sospechosos" =
      .error (.notFound "sospechosos") ∧
    cfgS.read_data (fun _ => Option.none) 18384 PyVal.none "sospechosos" =
      .error (.notFound "sospechosos") := by
  have h := claim_C3 cfgS (fun _ => Option.none) 18384 "sospechosos"
    (fun j => urlOf cfgS (18384 - j) "sospechosos")
  refine ⟨h.1 2 ?_ ?_, h.2 rfl ?_ ?_ PyVal.none⟩
  · intro j hj
    interval_cases j <;> rfl
  · intro j hj
    rfl
  · intro j hj
    interval_cases j <;> rfl
  · intro j hj
    rfl

/-- Claim C4: `clean_data` renames every column name by lower-casing it,
replacing spaces and hyphens with underscores, stripping degree signs,
transliterating remaining non-ASCII characters to ASCII, and deleting any run
of word characters immediately following the literal "identificacion"; in
particular "N° Caso" becomes "n_caso" and "identificacion_adicional" becomes
"identificacion". -/
theorem claim_C4 (df : DataFrame) :
    (renameColumns df).cols = df.cols.map rename_col ∧
    (renameColumns df).rows = df.rows ∧
    (∀ c, rename_col c =
      removeIdentSuffix (unidecodeStr (stripDegree (underscoreStr (lowerStr c))))) ∧
    rename_col "N° Caso" = "n_caso" ∧
    rename_col "identificacion_adicional" = "identificacion" :=
  ⟨rfl, rfl, fun _ => rfl, by decide, by decide⟩

theorem zip_filter_map_snd {α β : Type} (p : β → Bool) :
    ∀ (xs : List α) (ys : List β), xs.length = ys.length →
      ((xs.zip ys).filter (fun q => p q.2)).map (fun q => q.2) = ys.filter p := by
  intro xs
  induction xs with
  | nil =>
    intro ys h
    cases ys with
    | nil => rfl
    | cons y ys => simp at h
  | cons x xs ih =>
    intro ys h
    cases ys with
    | nil => simp at h
    | cons y ys =>
      have h' : xs.length = ys.length := by simpa using h
      by_cases hp : p y = true
      · simp [List.filter_cons, hp, ih ys h']
      · simp [List.filter_cons, hp, ih ys h']

/-- Claim C5: for every table with an `n_caso` column, the row filter of
`clean_data` drops exactly the rows whose `n_caso` field contains "Fuente" or
"Corte" and keeps every other row (in order), and `clean_data` continues with
exactly the filtered table. -/
theorem claim_C5 (cfg : Serendipia) (df : DataFrame) (j : Nat)
    (hlen : df.idx.length = df.rows.length)
    (hj : colIdx (renameColumns df).cols "n_caso" = some j) :
    ∃ df2, filterFuente (renameColumns df) = .ok df2 ∧
      df2.rows = df.rows.filter (fun r =>
        !(cellContainsStr (cellAt r j) "Fuente" || cellContainsStr (cellAt r j) "Corte")) ∧
      (∀ r, r ∈ df2.rows ↔ r ∈ df.rows ∧
        cellContainsStr (cellAt r j) "Fuente" = false ∧
        cellContainsStr (cellAt r j) "Corte" = false) ∧
      cfg.clean_data df = (parseColumn cfg.date_format "fecha_busqueda" df2).bind
        (fun df3 => parseColumn "%d/%m/%Y" "fecha_de_inicio_de_sintomas" df3) := by
  have hff : filterFuente (renameColumns df) = .ok ⟨(renameColumns df).cols,
      (((renameColumns df).idx.zip (renameColumns df).rows).filter
        (fun p => keepRow j p.2)).map (fun p => p.2),
      (((renameColumns df).idx.zip (renameColumns df).rows).filter
        (fun p => keepRow j p.2)).map (fun p => p.1)⟩ := by
    unfold filterFuente
    rw [hj]
  have hrows : (((renameColumns df).idx.zip (renameColumns df).rows).filter
      (fun p => keepRow j p.2)).map (fun p => p.2) = df.rows.filter (keepRow j) :=
    zip_filter_map_snd (keepRow j) df.idx df.rows hlen
  refine ⟨_, hff, ?_, ?_, ?_⟩
  · exact hrows
  · intro r
    show r ∈ (((renameColumns df).idx.zip (renameColumns df).rows).filter
      (fun p => keepRow j p.2)).map (fun p => p.2) ↔ _
    rw [hrows, List.mem_filter]
    simp [keepRow]
  · show (filterFuente (renameColumns df)).bind _ = _
    rw [hff]
    rfl

/-- Witness for C5: on a concrete table, the claim's example rows — the
"Fuente: Secretaría de Salud" row is dropped, the "123" row is kept. -/
theorem claim_C5_witness :
    dfC5.idx.length = dfC5.rows.length ∧
    colIdx (renameColumns dfC5).cols "n_caso" = some 0 ∧
    (∃ df2, filterFuente (renameColumns dfC5) = .ok df2 ∧
      df2.rows = dfC5.rows.filter (fun r =>
        !(cellContainsStr (cellAt r 0) "Fuente" || cellContainsStr (cellAt r 0) "Corte")) ∧
      (∀ r, r ∈ df2.rows ↔ r ∈ dfC5.rows ∧
        cellContainsStr (cellAt r 0) "Fuente" = false ∧
        cellContainsStr (cellAt r 0) "Corte" = false) ∧
      cfgW.clean_data dfC5 = (parseColumn cfgW.date_format "fecha_busqueda" df2).bind
        (fun df3 => parseColumn "%d/%m/%Y" "fecha_de_inicio_de_sintomas" df3)) ∧
    dfC5.rows.filter (fun r =>
        !(cellContainsStr (cellAt r 0) "Fuente" || cellContainsStr (cellAt r 0) "Corte")) =
      [[Cell.str "123"]] :=
  ⟨rfl, by decide, claim_C5 cfgW dfC5 0 rfl (by decide), by decide⟩

theorem colIdx_getElem (name : String) :
    ∀ (cols : List String) (j : Nat), colIdx cols name = some j → cols[j]? = some name := by
  intro cols
  induction cols with
  | nil =>
    intro j h
    simp [colIdx] at h
  | cons c cs ih =>
    intro j h
    simp only [colIdx] at h
    by_cases hc : c = name
    · rw [if_pos hc] at h
      obtain rfl : 0 = j := Option.some.inj h
      simpa using hc
    · rw [if_neg hc] at h
      cases hcs : colIdx cs name with
      | none => rw [hcs] at h; simp at h
      | some j' =>
        rw [hcs] at h
        obtain rfl : j' + 1 = j := by simpa using h
        simpa using ih j' hcs

theorem colIdx_inj (cols : List String) (n1 n2 : String) (j : Nat)
    (h1 : colIdx cols n1 = some j) (h2 : colIdx cols n2 = some j) : n1 = n2 := by
  have e1 := colIdx_getElem n1 cols j h1
  have e2 := colIdx_getElem n2 cols j h2
  rw [e1] at e2
  exact Option.some.inj e2

theorem cellAt_set_ne (r : List Cell) (i j : Nat) (v : Cell) (h : i ≠ j) :
    cellAt (r.set i v) j = cellAt r j := by
  simp [cellAt, List.getD_eq_getElem?_getD, List.getElem?_set_ne h]

theorem isDatelike_parseCellD (fmt : String) (c : Cell) :
    isDatelike (parseCellD fmt c) = true := by
  cases c with
  | str s =>
    simp only [parseCellD, parseCell]
    cases strptime fmt s <;> rfl
  | date d => rfl
  | null => rfl

theorem isDatelike_cellAt_set (r : List Cell) (j : Nat) (v : Cell) (hv : isDatelike v = true) :
    isDatelike (cellAt (r.set j v) j) = true := by
  by_cases h : j < r.length
  · have hc : cellAt (r.set j v) j = v := by
      simp [cellAt, List.getD_eq_getElem?_getD, List.getElem?_set_self h]
    rw [hc]
    exact hv
  · have hs : r.set j v = r := List.set_eq_of_length_le (by omega)
    have hn : cellAt r j = Cell.null := by
      simp [cellAt, List.getD_eq_getElem?_getD,
        List.getElem?_eq_none (show r.length ≤ j by omega)]
    rw [hs, hn]
    rfl

theorem parseColumn_some (fmt name : String) (df : DataFrame) (j : Nat)
    (hj : colIdx df.cols name = some j)
    (hall : df.rows.all (fun r => (parseCell fmt (cellAt r j)).isSome) = true) :
    parseColumn fmt name df = .ok (setParsed fmt j df) := by
  unfold parseColumn
  simp only [hj]
  rw [if_pos hall]
  rfl

theorem parseColumn_parse_fail (fmt name : String) (df : DataFrame) (j : Nat)
    (hj : colIdx df.cols name = some j)
    (hall : df.rows.all (fun r => (parseCell fmt (cellAt r j)).isSome) = false) :
    parseColumn fmt name df = .error (.normalizationError ("parse " ++ name)) := by
  unfold parseColumn
  simp only [hj]
  rw [if_neg (by simp [hall])]

theorem parseColumn_no_col (fmt name : String) (df : DataFrame)
    (hj : colIdx df.cols name = Option.none) :
    parseColumn fmt name df = .error (.normalizationError name) := by
  unfold parseColumn
  simp only [hj]

theorem all_congr' {α : Type} (xs : List α) (f g : α → Bool)
    (hfg : ∀ x, x ∈ xs → f x = g x) : xs.all f = xs.all g := by
  rw [Bool.eq_iff_iff, List.all_eq_true, List.all_eq_true]
  constructor
  · intro hall x hx
    rw [← hfg x hx]
    exact hall x hx
  · intro hall x hx
    rw [hfg x hx]
    exact hall x hx

theorem filterFuente_error (df : DataFrame) (e : PyError) (h : filterFuente df = .error e) :
    e = .normalizationError "n_caso" := by
  unfold filterFuente at h
  cases hnc : colIdx df.cols "n_caso" with
  | none =>
    simp only [hnc] at h
    exact (Except.error.inj h).symm
  | some j =>
    simp only [hnc] at h
    simp at h

theorem filterFuente_ok_cols (df df2 : DataFrame) (h : filterFuente df = .ok df2) :
    df2.cols = df.cols := by
  unfold filterFuente at h
  cases hnc : colIdx df.cols "n_caso" with
  | none =>
    simp only [hnc] at h
    simp at h
  | some j =>
    simp only [hnc] at h
    obtain rfl := Except.ok.inj h
    rfl


/-- Claim C6, amended: the `fecha_busqueda` column is required by `clean_data`
unconditionally — the source accesses `df['fecha_busqueda']` regardless of
`add_search_date`.  With that amendment: `clean_data` succeeds exactly when,
after renaming, `n_caso`, `fecha_busqueda` and `fecha_de_inicio_de_sintomas`
are all present and, on the rows surviving the footer filter, every
`fecha_busqueda` cell parses under the configured date format and every
`fecha_de_inicio_de_sintomas` cell parses under day/month/year with slashes;
on success both date columns hold canonical date values, and every failure is
a NormalizationError (no table is produced on failure). -/
theorem claim_C6 (cfg : Serendipia) (df : DataFrame) :
    ((∃ out, cfg.clean_data df = .ok out) ↔
      (∃ df2 jb jd, filterFuente (renameColumns df) = .ok df2 ∧
        colIdx (renameColumns df).cols "fecha_busqueda" = some jb ∧
        colIdx (renameColumns df).cols "fecha_de_inicio_de_sintomas" = some jd ∧
        df2.rows.all (fun r => (parseCell cfg.date_format (cellAt r jb)).isSome) = true ∧
        df2.rows.all (fun r => (parseCell "%d/%m/%Y" (cellAt r jd)).isSome) = true)) ∧
    (∀ out, cfg.clean_data df = .ok out →
      ∃ jb jd, colIdx out.cols "fecha_busqueda" = some jb ∧
        colIdx out.cols "fecha_de_inicio_de_sintomas" = some jd ∧
        ∀ r ∈ out.rows, isDatelike (cellAt r jb) = true ∧ isDatelike (cellAt r jd) = true) ∧
    (∀ e, cfg.clean_data df = .error e → ∃ msg, e = .normalizationError msg) := by
  cases hff : filterFuente (renameColumns df) with
  | error e0 =>
    have he0 := filterFuente_error _ _ hff
    have hclean : cfg.clean_data df = .error e0 := by
      show (filterFuente (renameColumns df)).bind _ = _
      rw [hff]
      rfl
    refine ⟨?_, ?_, ?_⟩
    · constructor
      · rintro ⟨out, hout⟩
        rw [hclean] at hout
        simp at hout
      · rintro ⟨df2, jb, jd, hdf2, -⟩
        exact Except.noConfusion hdf2
    · intro out hout
      rw [hclean] at hout
      simp at hout
    · intro e he
      rw [hclean] at he
      obtain rfl := Except.error.inj he
      exact ⟨"n_caso", he0⟩
  | ok df2 =>
    have hcols2 : df2.cols = (renameColumns df).cols := filterFuente_ok_cols _ _ hff
    have hstep : cfg.clean_data df =
        (parseColumn cfg.date_format "fecha_busqueda" df2).bind
          (fun df3 => parseColumn "%d/%m/%Y" "fecha_de_inicio_de_sintomas" df3) := by
      show (filterFuente (renameColumns df)).bind _ = _
      rw [hff]
      rfl
    cases hfb : colIdx (renameColumns df).cols "fecha_busqueda" with
    | none =>
      have hpb : parseColumn cfg.date_format "fecha_busqueda" df2 =
          .error (.normalizationError "fecha_busqueda") :=
        parseColumn_no_col _ _ _ (by rw [hcols2]; exact hfb)
      have hclean : cfg.clean_data df = .error (.normalizationError "fecha_busqueda") := by
        rw [hstep, hpb]
        rfl
      refine ⟨?_, ?_, ?_⟩
      · constructor
        · rintro ⟨out, hout⟩
          rw [hclean] at hout
          simp at hout
        · rintro ⟨df2', jb', jd', hdf2', hfb', -⟩
          exact Option.noConfusion hfb'
      · intro out hout
        rw [hclean] at hout
        simp at hout
      · intro e he
        rw [hclean] at he
        obtain rfl := Except.error.inj he
        exact ⟨"fecha_busqueda", rfl⟩
    | some jb =>
      have hjb2 : colIdx df2.cols "fecha_busqueda" = some jb := by
        rw [hcols2]
        exact hfb
      by_cases hallb :
          df2.rows.all (fun r => (parseCell cfg.date_format (cellAt r jb)).isSome) = true
      · have hpb := parseColumn_some cfg.date_format "fecha_busqueda" df2 jb hjb2 hallb
        have hstep2 : cfg.clean_data df = parseColumn "%d/%m/%Y"
            "fecha_de_inicio_de_sintomas" (setParsed cfg.date_format jb df2) := by
          rw [hstep, hpb]
          rfl
        cases hfd : colIdx (renameColumns df).cols "fecha_de_inicio_de_sintomas" with
        | none =>
          have hpd : parseColumn "%d/%m/%Y" "fecha_de_inicio_de_sintomas"
              (setParsed cfg.date_format jb df2) =
              .error (.normalizationError "fecha_de_inicio_de_sintomas") :=
            parseColumn_no_col _ _ _ (by
              show colIdx df2.cols _ = _
              rw [hcols2]
              exact hfd)
          have hclean := hstep2.trans hpd
          refine ⟨?_, ?_, ?_⟩
          · constructor
            · rintro ⟨out, hout⟩
              rw [hclean] at hout
              simp at hout
            · rintro ⟨df2', jb', jd', hdf2', hfb', hfd', -⟩
              exact Option.noConfusion hfd'
          · intro out hout
            rw [hclean] at hout
            simp at hout
          · intro e he
            rw [hclean] at he
            obtain rfl := Except.error.inj he
            exact ⟨"fecha_de_inicio_de_sintomas", rfl⟩
        | some jd =>
          have hne : jb ≠ jd := by
            intro h
            subst h
            exact absurd (colIdx_inj _ _ _ _ hfb hfd) (by decide)
          have htrans : ∀ fmt2 : String,
              (setParsed cfg.date_format jb df2).rows.all
                (fun r => (parseCell fmt2 (cellAt r jd)).isSome) =
              df2.rows.all (fun r => (parseCell fmt2 (cellAt r jd)).isSome) := by
            intro fmt2
            show (df2.rows.map _).all _ = _
            rw [List.all_map]
            exact all_congr' _ _ _ (fun r hr => by
              simp only [Function.comp_apply]
              rw [cellAt_set_ne r jb jd _ hne])
          have hjd3 : colIdx (setParsed cfg.date_format jb df2).cols
              "fecha_de_inicio_de_sintomas" = some jd := by
            show colIdx df2.cols _ = _
            rw [hcols2]
            exact hfd
          by_cases halld :
              df2.rows.all (fun r => (parseCell "%d/%m/%Y" (cellAt r jd)).isSome) = true
          · have hpd := parseColumn_some "%d/%m/%Y" "fecha_de_inicio_de_sintomas"
              (setParsed cfg.date_format jb df2) jd hjd3
              (by rw [htrans]; exact halld)
            have hclean := hstep2.trans hpd
            refine ⟨?_, ?_, ?_⟩
            · exact iff_of_true ⟨_, hclean⟩ ⟨df2, jb, jd, rfl, rfl, rfl, hallb, halld⟩
            · intro out hout
              obtain rfl := Except.ok.inj (hclean.symm.trans hout)
              refine ⟨jb, jd, ?_, ?_, ?_⟩
              · show colIdx df2.cols _ = _
                rw [hcols2]
                exact hfb
              · show colIdx df2.cols _ = _
                rw [hcols2]
                exact hfd
              · intro r hr
                simp only [setParsed, List.mem_map] at hr
                obtain ⟨r0, hr0, hreq⟩ := hr
                subst hreq
                obtain ⟨r1, hr1, hreq1⟩ := hr0
                subst hreq1
                constructor
                · rw [cellAt_set_ne _ jd jb _ (Ne.symm hne)]
                  exact isDatelike_cellAt_set _ _ _ (isDatelike_parseCellD _ _)
                · exact isDatelike_cellAt_set _ _ _ (isDatelike_parseCellD _ _)
            · intro e he
              rw [hclean] at he
              simp at he
          · have halld' :
                df2.rows.all (fun r => (parseCell "%d/%m/%Y" (cellAt r jd)).isSome) = false := by
              simpa using halld
            have hpd := parseColumn_parse_fail "%d/%m/%Y" "fecha_de_inicio_de_sintomas"
              (setParsed cfg.date_format jb df2) jd hjd3
              (by rw [htrans]; exact halld')
            have hclean := hstep2.trans hpd
            refine ⟨?_, ?_, ?_⟩
            · constructor
              · rintro ⟨out, hout⟩
                rw [hclean] at hout
                simp at hout
              · rintro ⟨df2', jb', jd', hdf2', hfb', hfd', hallb'', halld''⟩
                obtain rfl := Except.ok.inj hdf2'
                obtain rfl := Option.some.inj hfd'
                exact absurd (halld'.symm.trans halld'') (by decide)
            · intro out hout
              rw [hclean] at hout
              simp at hout
            · intro e he
              rw [hclean] at he
              obtain rfl := Except.error.inj he
              exact ⟨"parse " ++ "fecha_de_inicio_de_sintomas", rfl⟩
      · have hallb' :
            df2.rows.all (fun r => (parseCell cfg.date_format (cellAt r jb)).isSome) = false := by
          simpa using hallb
        have hpb := parseColumn_parse_fail cfg.date_format "fecha_busqueda" df2 jb hjb2 hallb'
        have hclean : cfg.clean_data df =
            .error (.normalizationError ("parse " ++ "fecha_busqueda")) := by
          rw [hstep, hpb]
          rfl
        refine ⟨?_, ?_, ?_⟩
        · constructor
          · rintro ⟨out, hout⟩
            rw [hclean] at hout
            simp at hout
          · rintro ⟨df2', jb', jd', hdf2', hfb', hfd', hallb'', -⟩
            obtain rfl := Except.ok.inj hdf2'
            obtain rfl := Option.some.inj hfb'
            exact absurd (hallb'.symm.trans hallb'') (by decide)
        · intro out hout
          rw [hclean] at hout
          simp at hout
        · intro e he
          rw [hclean] at he
          obtain rfl := Except.error.inj he
          exact ⟨"parse " ++ "fecha_busqueda", rfl⟩

/-- Counterexample to C6 as stated: with `add_search_date = false` the claim
says `fecha_busqueda` is not required, yet on a table that has `n_caso` and a
parseable `fecha_de_inicio_de_sintomas` but no `fecha_busqueda` column (none of
the claim's failure conditions holds) `clean_data` still fails, because the
source reads `df['fecha_busqueda']` unconditionally. -/
theorem claim_C6_counterexample :
    cfgN.add_search_date = false ∧
    (renameColumns dfC6).cols = ["n_caso", "fecha_de_inicio_de_sintomas"] ∧
    (∀ r ∈ dfC6.rows, (parseCell "%d/%m/%Y" (cellAt r 1)).isSome = true) ∧
    cfgN.clean_data dfC6 = .error (.normalizationError "fecha_busqueda") :=
  ⟨rfl, by decide, by decide, rfl⟩

/-- Witness for C6 on a table where cleaning succeeds. -/
theorem claim_C6_witness :
    ∃ out, cfgW.clean_data dfC6ok = .ok out :=
  (claim_C6 cfgW dfC6ok).1.mpr
    ⟨⟨["n_caso", "fecha_de_inicio_de_sintomas", "fecha_busqueda"],
        [[Cell.str "1", Cell.str "02/05/2020", Cell.str "01-05-2020"]], [0]⟩,
      2, 1, rfl, by decide, by decide, by decide, by decide⟩

theorem mapE_ok_ne_nil {α β : Type} (f : α → Except PyError β) (a : α) (l : List α)
    (bs : List β) (h : mapE f (a :: l) = .ok bs) : bs ≠ [] := by
  unfold mapE at h
  cases hfa : f a with
  | error e =>
    simp only [hfa] at h
    simp at h
  | ok b =>
    simp only [hfa] at h
    cases hml : mapE f l with
    | error e =>
      simp only [hml] at h
      simp at h
    | ok bs' =>
      simp only [hml] at h
      obtain rfl := Except.ok.inj h
      simp

theorem cartProd_ne_nil {α β : Type} (xs : List α) (ys : List β)
    (hx : xs ≠ []) (hy : ys ≠ []) : cartProd xs ys ≠ [] := by
  cases xs with
  | nil => exact absurd rfl hx
  | cons x xs =>
    cases ys with
    | nil => exact absurd rfl hy
    | cons y ys => simp [cartProd]

theorem mem_concatCols (dfs : List DataFrame) (hne : dfs ≠ []) (c : String) :
    c ∈ concatCols dfs ↔ ∃ d, d ∈ dfs ∧ c ∈ d.cols := by
  cases dfs with
  | nil => exact absurd rfl hne
  | cons d ds =>
    have hcc : concatCols (d :: ds) =
        if ((d :: ds).all fun x => x.cols == d.cols) = true then d.cols
        else sortStrings (((d :: ds).flatMap fun x => x.cols).dedup) := rfl
    rw [hcc]
    by_cases hall : (d :: ds).all (fun x => x.cols == d.cols) = true
    · rw [if_pos hall]
      constructor
      · intro hc
        exact ⟨d, by simp, hc⟩
      · rintro ⟨x, hx, hcx⟩
        have hb := List.all_eq_true.mp hall x hx
        have hx2 : x.cols = d.cols := by simpa using hb
        rw [← hx2]
        exact hcx
    · rw [if_neg hall]
      unfold sortStrings
      rw [(List.perm_insertionSort _ _).mem_iff, List.mem_dedup, List.mem_flatMap]

theorem reindexRow_null (oldCols : List String) (r : List Cell) (newCols : List String)
    (j : Nat) (c : String) (hj : newCols[j]? = some c) (hc : colIdx oldCols c = Option.none) :
    (reindexRow oldCols r newCols)[j]? = some Cell.null := by
  unfold reindexRow
  rw [List.getElem?_map, hj]
  simp [hc]

/-- Claim C7: `get_data` processes the (date, kind) pairs in the Cartesian
product order of the configured date and kind lists; with `clean = false` it
returns the ordered list of raw per-pair tables, and with `clean = true` a
single table concatenating the cleaned tables in order: its rows are each
cleaned table's rows in order aligned to the combined column list, its column
set is the union of the inputs' column sets (rows missing a column get a null
cell), its row index is reset to `0, 1, 2, ...`, and no deduplication
happens. -/
theorem claim_C7 (cfg : Serendipia) (fetch : String → Option DataFrame) (today : Nat)
    (kinds : List String) (dfs cdfs : List DataFrame)
    (hkind : cfg.kind = some kinds)
    (hread : mapE (fun p => cfg.read_data fetch today p.1 p.2) (cartProd cfg.date kinds) =
      .ok dfs) :
    (cfg.clean = false → cfg.get_data fetch today = .ok (.inl dfs)) ∧
    (cfg.clean = true → cfg.date ≠ [] → kinds ≠ [] →
      mapE cfg.clean_data dfs = .ok cdfs →
      ∃ final, cfg.get_data fetch today = .ok (.inr final) ∧
        final.rows = cdfs.flatMap
          (fun d => d.rows.map (fun r => reindexRow d.cols r (concatCols cdfs))) ∧
        final.idx = List.range final.rows.length ∧
        (∀ c, c ∈ final.cols ↔ ∃ d, d ∈ cdfs ∧ c ∈ d.cols) ∧
        (∀ (oc : List String) (r : List Cell) (nc : List String) (j : Nat) (c : String),
          nc[j]? = some c → colIdx oc c = Option.none →
          (reindexRow oc r nc)[j]? = some Cell.null)) := by
  constructor
  · intro hc
    simp [Serendipia.get_data, hkind, hread, hc]
  · intro hc hdate hkinds hclean2
    have hne : dfs ≠ [] := by
      cases hcp : cartProd cfg.date kinds with
      | nil => exact absurd hcp (cartProd_ne_nil _ _ hdate hkinds)
      | cons p l =>
        rw [hcp] at hread
        exact mapE_ok_ne_nil _ _ _ _ hread
    have hcne : cdfs ≠ [] := by
      cases dfs with
      | nil => exact absurd rfl hne
      | cons d l => exact mapE_ok_ne_nil _ _ _ _ hclean2
    refine ⟨resetIndex (concatTables cdfs), ?_, rfl, rfl, ?_, ?_⟩
    · simp [Serendipia.get_data, hkind, hread, hc, hclean2]
    · intro c
      exact mem_concatCols cdfs hcne c
    · intro oc r nc j c hj hc2
      exact reindexRow_null oc r nc j c hj hc2

/-- Witness for C7: two explicit dates and one kind, a fetch oracle that
serves both URLs, `clean = true`; the pipeline produces the concatenated,
reindexed table. -/
theorem claim_C7_witness :
    mapE (fun p => cfgW.read_data fetchW2 0 p.1 p.2) (cartProd cfgW.date ["positivos"]) =
      .ok dfs7 ∧
    mapE cfgW.clean_data dfs7 = .ok cdfs7 ∧
    ∃ final, cfgW.get_data fetchW2 0 = .ok (.inr final) ∧
      final.rows = cdfs7.flatMap
        (fun d => d.rows.map (fun r => reindexRow d.cols r (concatCols cdfs7))) ∧
      final.idx = List.range final.rows.length ∧
      (∀ c, c ∈ final.cols ↔ ∃ d, d ∈ cdfs7 ∧ c ∈ d.cols) ∧
      (∀ (oc : List String) (r : List Cell) (nc : List String) (j : Nat) (c : String),
        nc[j]? = some c → colIdx oc c = Option.none →
        (reindexRow oc r nc)[j]? = some Cell.null) := by
  have h := claim_C7 cfgW fetchW2 0 ["positivos"] dfs7 cdfs7 rfl rfl
  exact ⟨rfl, rfl, h.2 rfl (fun hx => List.noConfusion hx) (fun hx => List.noConfusion hx) rfl⟩

/-- Every successful construction carries exactly the configuration state the
constructor computes from its arguments. -/
theorem init_ok (date kind : PyVal) (c a : Bool) (f : String) (cfg : Serendipia)
    (h : Serendipia.init date kind c a f = .ok cfg) :
    cfg.search_date = isFalsy date ∧
    cfg.date = (if isStr date || isNone date then [date] else pyListOf date) ∧
    cfg.clean = c ∧ cfg.add_search_date = a ∧ cfg.date_format = f ∧
    ((∀ s, kind ≠ .str s) →
      cfg.kind = (if isFalsy kind then some ["positivos", "sospechosos"] else Option.none)) ∧
    (∀ s, kind = .str s → cfg.kind = some [s]) := by
  unfold Serendipia.init at h
  by_cases hd : wellTyped date = false
  · rw [if_pos hd] at h
    simp at h
  · rw [if_neg hd] at h
    by_cases hk : wellTyped kind = false
    · rw [if_pos hk] at h
      simp at h
    · rw [if_neg hk] at h
      cases kind with
      | str s =>
        split at h
        · rename_i x s2 heq
          obtain rfl := PyVal.str.inj heq
          split at h
          · obtain rfl := Except.ok.inj h
            refine ⟨rfl, rfl, rfl, rfl, rfl, ?_, ?_⟩
            · intro hns
              exact absurd rfl (hns s)
            · intro s' hs'
              obtain rfl := PyVal.str.inj hs'
              rfl
          · simp at h
        · rename_i x hcon
          exact (hcon s rfl).elim
      | none =>
        obtain rfl := Except.ok.inj h
        exact ⟨rfl, rfl, rfl, rfl, rfl, fun _ => rfl, fun s hs => PyVal.noConfusion hs⟩
      | int n =>
        obtain rfl := Except.ok.inj h
        exact ⟨rfl, rfl, rfl, rfl, rfl, fun _ => rfl, fun s hs => PyVal.noConfusion hs⟩
      | bool b =>
        obtain rfl := Except.ok.inj h
        exact ⟨rfl, rfl, rfl, rfl, rfl, fun _ => rfl, fun s hs => PyVal.noConfusion hs⟩
      | list xs =>
        obtain rfl := Except.ok.inj h
        exact ⟨rfl, rfl, rfl, rfl, rfl, fun _ => rfl, fun s hs => PyVal.noConfusion hs⟩

/-- Claim C8: construction fails with InvalidArgument when `date` is neither a
string, a list, nor absent; when `kind` is neither a string, a list, nor
absent; and when a supplied `kind` string is not one of `positivos` and
`sospechosos`; for well-typed inputs with allowed kind values construction
succeeds, producing only the configuration state. -/
theorem claim_C8 (date kind : PyVal) (c a : Bool) (f : String) :
    (wellTyped date = false →
      Serendipia.init date kind c a f =
        .error (.invalidArgument "date must be string or list")) ∧
    (wellTyped date = true → wellTyped kind = false →
      Serendipia.init date kind c a f =
        .error (.invalidArgument "kind must be string or list")) ∧
    (∀ s, wellTyped date = true → kind = .str s → s ≠ "positivos" → s ≠ "sospechosos" →
      Serendipia.init date kind c a f = .error (.invalidArgument
        "Serendipia source only considers positivos, sospechosos. Please use one of them.")) ∧
    (wellTyped date = true → wellTyped kind = true →
      (∀ s, kind = .str s → s = "positivos" ∨ s = "sospechosos") →
      ∃ cfg, Serendipia.init date kind c a f = .ok cfg) := by
  refine ⟨?_, ?_, ?_, ?_⟩
  · intro hd
    unfold Serendipia.init
    rw [if_pos hd]
  · intro hd hk
    unfold Serendipia.init
    rw [if_neg (by simp [hd]), if_pos hk]
  · intro s hd hks hs1 hs2
    subst hks
    unfold Serendipia.init
    rw [if_neg (by simp [hd]), if_neg (by simp [wellTyped, isStr])]
    simp [hs1, hs2]
  · intro hd hk hks
    cases kind with
    | str s =>
      rcases hks s rfl with h1 | h1
      · subst h1
        refine ⟨⟨isFalsy date, if isStr date || isNone date then [date] else pyListOf date,
          some ["positivos"], c, a, f⟩, ?_⟩
        unfold Serendipia.init
        rw [if_neg (by simp [hd]), if_neg (by simp [wellTyped, isStr])]
        rfl
      · subst h1
        refine ⟨⟨isFalsy date, if isStr date || isNone date then [date] else pyListOf date,
          some ["sospechosos"], c, a, f⟩, ?_⟩
        unfold Serendipia.init
        rw [if_neg (by simp [hd]), if_neg (by simp [wellTyped, isStr])]
        rfl
    | none =>
      refine ⟨⟨isFalsy date, if isStr date || isNone date then [date] else pyListOf date,
        some ["positivos", "sospechosos"], c, a, f⟩, ?_⟩
      unfold Serendipia.init
      rw [if_neg (by simp [hd]), if_neg (by simp [hk])]
      rfl
    | int n =>
      simp [wellTyped, isStr, isList, isNone] at hk
    | bool b =>
      simp [wellTyped, isStr, isList, isNone] at hk
    | list xs =>
      refine ⟨⟨isFalsy date, if isStr date || isNone date then [date] else pyListOf date,
        if isFalsy (PyVal.list xs) then some ["positivos", "sospechosos"] else Option.none,
        c, a, f⟩, ?_⟩
      unfold Serendipia.init
      rw [if_neg (by simp [hd]), if_neg (by simp [hk])]

/-- Witness for C8: the four branches at concrete arguments. -/
theorem claim_C8_witness :
    Serendipia.init (.int 3) PyVal.none true true "%d-%m-%Y" =
      .error (.invalidArgument "date must be string or list") ∧
    Serendipia.init PyVal.none (.int 3) true true "%d-%m-%Y" =
      .error (.invalidArgument "kind must be string or list") ∧
    Serendipia.init PyVal.none (.str "casos") true true "%d-%m-%Y" =
      .error (.invalidArgument
        "Serendipia source only considers positivos, sospechosos. Please use one of them.") ∧
    (∃ cfg, Serendipia.init PyVal.none (.str "positivos") true true "%d-%m-%Y" = .ok cfg) :=
  ⟨(claim_C8 (.int 3) PyVal.none true true "%d-%m-%Y").1 rfl,
   (claim_C8 PyVal.none (.int 3) true true "%d-%m-%Y").2.1 rfl rfl,
   (claim_C8 PyVal.none (.str "casos") true true "%d-%m-%Y").2.2.1 "casos" rfl rfl
     (by decide) (by decide),
   (claim_C8 PyVal.none (.str "positivos") true true "%d-%m-%Y").2.2.2 rfl rfl
     (fun s hs => Or.inl (PyVal.str.inj hs).symm)⟩

/-- Claim C9: when `date` is absent the configuration has the search-mode flag
set and stores the dates as the one-element list holding the absence sentinel;
when `kind` is absent the configured kinds default to
`[positivos, sospechosos]` in that order. -/
theorem claim_C9 (date kind : PyVal) (c a : Bool) (f : String) (cfg : Serendipia) :
    (Serendipia.init PyVal.none kind c a f = .ok cfg →
      cfg.search_date = true ∧ cfg.date = [PyVal.none]) ∧
    (Serendipia.init date PyVal.none c a f = .ok cfg →
      cfg.kind = some ["positivos", "sospechosos"]) := by
  constructor
  · intro h
    have hc := init_ok PyVal.none kind c a f cfg h
    exact ⟨hc.1, hc.2.1⟩
  · intro h
    have hc := init_ok date PyVal.none c a f cfg h
    exact hc.2.2.2.2.2.1 (fun s hs => PyVal.noConfusion hs)

/-- Witness for C9 with both arguments absent. -/
theorem claim_C9_witness :
    ∃ cfg, Serendipia.init PyVal.none PyVal.none true true "%d-%m-%Y" = .ok cfg ∧
      cfg.search_date = true ∧ cfg.date = [PyVal.none] ∧
      cfg.kind = some ["positivos", "sospechosos"] := by
  have hok : Serendipia.init PyVal.none PyVal.none true true "%d-%m-%Y" =
      .ok ⟨true, [PyVal.none], some ["positivos", "sospechosos"], true, true, "%d-%m-%Y"⟩ := rfl
  have h := claim_C9 PyVal.none PyVal.none true true "%d-%m-%Y"
    ⟨true, [PyVal.none], some ["positivos", "sospechosos"], true, true, "%d-%m-%Y"⟩
  exact ⟨_, hok, (h.1 hok).1, (h.1 hok).2, h.2 hok⟩

/-- Claim C10 (implicit): a non-empty list supplied as `kind` passes the type
check, its elements are never validated, no branch assigns the kinds field, so
construction succeeds with the kinds state missing and a subsequent `get_data`
fails because of the missing field. -/
theorem claim_C10 (date x : PyVal) (xs : List PyVal) (c a : Bool) (f : String)
    (hd : wellTyped date = true) :
    ∃ cfg, Serendipia.init date (.list (x :: xs)) c a f = .ok cfg ∧
      cfg.kind = Option.none ∧
      ∀ (fetch : String → Option DataFrame) (today : Nat),
        cfg.get_data fetch today = .error (.attributeError "kind") := by
  have hok : Serendipia.init date (.list (x :: xs)) c a f =
      .ok ⟨isFalsy date, (if isStr date || isNone date then [date] else pyListOf date),
        Option.none, c, a, f⟩ := by
    unfold Serendipia.init
    rw [if_neg (by simp [hd]), if_neg (by simp [wellTyped, isList])]
    rfl
  exact ⟨_, hok, rfl, fun fetch today => rfl⟩

/-- Witness for C10: a list containing a disallowed kind value is accepted. -/
theorem claim_C10_witness :
    ∃ cfg, Serendipia.init PyVal.none (.list [.str "nope"]) true true "%d-%m-%Y" = .ok cfg ∧
      cfg.kind = Option.none ∧
      ∀ (fetch : String → Option DataFrame) (today : Nat),
        cfg.get_data fetch today = .error (.attributeError "kind") :=
  claim_C10 PyVal.none (.str "nope") [] true true "%d-%m-%Y" rfl
